import Mathlib

/-!
Shallow embedding of `contracts/PrivacyCargoTracking_FHE.sol`
(contract `PrivacyCargoTracking`).

Addresses are modelled as natural numbers with `0` playing the role of
`address(0)`.  The external FHE library (`FHE.asEuint8`, `FHE.asEbool`,
`FHE.asEuint64`, `FHE.allowThis`, `FHE.allow`) is modelled as an opaque
handle generator together with an access-control list: encryption returns a
fresh handle and records the plaintext, `allowThis` and `allow` append to
the ACL.  Solidity `require` failures are modelled by `Except.error` with
the source's revert message; a reverted call leaves the pre-state untouched
(captured by the `applyTx` wrapper).
-/

namespace PrivacyCargoTracking

abbrev Address := Nat

/-- Association-list lookup with decidable key equality, modelling a
Solidity `mapping` probe that may miss. -/
def lookupA {α β : Type} [DecidableEq α] : List (α × β) → α → Option β
  | [], _ => none
  | (k', v') :: rest, k => if k' = k then some v' else lookupA rest k

/-- Association-list update: overwrite the entry for `k` in place, or
append a new entry when the key is absent. -/
def setA {α β : Type} [DecidableEq α] : List (α × β) → α → β → List (α × β)
  | [], k, v => [(k, v)]
  | (k', v') :: rest, k, v =>
    if k' = k then (k, v) :: rest else (k', v') :: setA rest k v

/-- The `Cargo` struct of the contract.  The three encrypted fields are
ciphertext handles (opaque naturals issued by the FHE-library model). -/
structure Cargo where
  cargoId : String
  destination : String
  status : String
  location : String
  encryptedPriority : Nat
  encryptedIsFragile : Nat
  encryptedValue : Nat
  owner : Address
  authorizedViewer : Address
  timestamp : Nat
  isPublic : Bool
  exists_ : Bool
deriving DecidableEq, Repr

/-- The default `Cargo` value a Solidity mapping yields for an absent key:
all fields zero-initialised, in particular `exists_ = false`. -/
def defaultCargo : Cargo :=
  { cargoId := "", destination := "", status := "", location := ""
    encryptedPriority := 0, encryptedIsFragile := 0, encryptedValue := 0
    owner := 0, authorizedViewer := 0, timestamp := 0
    isPublic := false, exists_ := false }

/-- State of the external FHE library: a fresh-handle counter, the
plaintext recorded for each issued handle, the per-address ACL entries made
by `FHE.allow`, and the contract-self entries made by `FHE.allowThis`. -/
structure FHEState where
  nextHandle : Nat
  plain : List (Nat × Nat)
  acl : List (Nat × Address)
  aclThis : List Nat
deriving DecidableEq, Repr

/-- `FHE.asEuintN` / `FHE.asEbool`: issue a fresh ciphertext handle for a
plaintext (booleans are encoded 0/1) and return it with the new library
state. -/
def fheEncrypt (f : FHEState) (p : Nat) : Nat × FHEState :=
  (f.nextHandle,
   { f with nextHandle := f.nextHandle + 1, plain := (f.nextHandle, p) :: f.plain })

/-- `FHE.allowThis h`: grant the contract itself permission on handle `h`. -/
def fheAllowThis (f : FHEState) (h : Nat) : FHEState :=
  { f with aclThis := h :: f.aclThis }

/-- `FHE.allow h a`: grant address `a` permission on handle `h`. -/
def fheAllow (f : FHEState) (h : Nat) (a : Address) : FHEState :=
  { f with acl := (h, a) :: f.acl }

/-- The contract's storage: the `cargos` mapping, the `ownerCargos`
secondary index, and the external FHE-library state. -/
structure ContractState where
  cargos : List (String × Cargo)
  ownerCargos : List (Address × List String)
  fhe : FHEState
deriving DecidableEq, Repr

/-- The freshly deployed contract: both mappings empty. -/
def initialState : ContractState :=
  { cargos := [], ownerCargos := [], fhe := { nextHandle := 0, plain := [], acl := [], aclThis := [] } }

/-- Reading `cargos[cargoId]`: the stored struct, or the zero-initialised
default when the key is absent. -/
def getCargo (s : ContractState) (cargoId : String) : Cargo :=
  (lookupA s.cargos cargoId).getD defaultCargo

/-- Writing `cargos[cargoId] = c`. -/
def setCargo (s : ContractState) (cargoId : String) (c : Cargo) : ContractState :=
  { s with cargos := setA s.cargos cargoId c }

/-- Reading `ownerCargos[a]` (a Solidity dynamic array defaults to empty). -/
def ownerIndex (s : ContractState) (a : Address) : List String :=
  (lookupA s.ownerCargos a).getD []

/-- `ownerCargos[a].push(id)`. -/
def pushOwnerCargo (s : ContractState) (a : Address) (id : String) : ContractState :=
  { s with ownerCargos := setA s.ownerCargos a (ownerIndex s a ++ [id]) }

/-- The three event types the contract emits. -/
inductive Event where
  | cargoCreated (cargoId : String) (owner : Address)
  | cargoStatusUpdated (cargoId status location : String)
  | cargoPrivacyUpdated (cargoId : String) (isPublic : Bool)
deriving DecidableEq, Repr

/-- `require(cond, msg)`: succeed silently or revert with `msg`. -/
def requireB (cond : Bool) (msg : String) : Except String Unit :=
  if cond then Except.ok () else Except.error msg

/-- `createCargo(cargoId, destination, priority, isFragile, cargoValue)`
called by `sender` at block time `t`.  Mirrors the source line by line:
four `require`s, three encryptions, six permission grants, the record
write, the index push, and the `CargoCreated` event. -/
def createCargo (s : ContractState) (sender : Address) (t : Nat)
    (cargoId destination : String) (priority : Nat) (isFragile : Bool)
    (cargoValue : Nat) : Except String (ContractState × List Event) := do
  requireB (!(getCargo s cargoId).exists_) "Cargo already exists"
  requireB (cargoId.length > 0) "Cargo ID cannot be empty"
  requireB (destination.length > 0) "Destination cannot be empty"
  requireB (priority ≤ 3) "Priority must be 0-3"
  let (hP, f1) := fheEncrypt s.fhe priority
  let (hF, f2) := fheEncrypt f1 (if isFragile then 1 else 0)
  let (hV, f3) := fheEncrypt f2 cargoValue
  let f4 := fheAllow (fheAllowThis f3 hP) hP sender
  let f5 := fheAllow (fheAllowThis f4 hF) hF sender
  let f6 := fheAllow (fheAllowThis f5 hV) hV sender
  let s1 := { s with fhe := f6 }
  let s2 := setCargo s1 cargoId
    { cargoId := cargoId, destination := destination
      status := "Created", location := "Origin"
      encryptedPriority := hP, encryptedIsFragile := hF, encryptedValue := hV
      owner := sender, authorizedViewer := 0, timestamp := t
      isPublic := false, exists_ := true }
  let s3 := pushOwnerCargo s2 sender cargoId
  pure (s3, [Event.cargoCreated cargoId sender])

/-- `updateStatus(cargoId, status, location)` called by `sender` at block
time `t`: owner-only, overwrites status, location and timestamp, emits
`CargoStatusUpdated`. -/
def updateStatus (s : ContractState) (sender : Address) (t : Nat)
    (cargoId status location : String) :
    Except String (ContractState × List Event) := do
  requireB (getCargo s cargoId).exists_ "Cargo does not exist"
  requireB ((getCargo s cargoId).owner = sender) "Only cargo owner allowed"
  let c := getCargo s cargoId
  let s1 := setCargo s cargoId { c with status := status, location := location, timestamp := t }
  pure (s1, [Event.cargoStatusUpdated cargoId status location])

/-- `updatePrivacySettings(cargoId, isPublic, authorizedViewer)` called by
`sender`: owner-only, sets the flag, replaces the viewer, and re-grants the
viewer permission on the three handles when the viewer is not `address(0)`;
emits `CargoPrivacyUpdated`. -/
def updatePrivacySettings (s : ContractState) (sender : Address)
    (cargoId : String) (isPublic : Bool) (authorizedViewer : Address) :
    Except String (ContractState × List Event) := do
  requireB (getCargo s cargoId).exists_ "Cargo does not exist"
  requireB ((getCargo s cargoId).owner = sender) "Only cargo owner allowed"
  let c := getCargo s cargoId
  let s1 := setCargo s cargoId { c with isPublic := isPublic, authorizedViewer := authorizedViewer }
  let f1 := fheAllow (fheAllow (fheAllow s1.fhe c.encryptedPriority authorizedViewer)
    c.encryptedIsFragile authorizedViewer) c.encryptedValue authorizedViewer
  let s2 := if authorizedViewer ≠ 0 then { s1 with fhe := f1 } else s1
  pure (s2, [Event.cargoPrivacyUpdated cargoId isPublic])

/-- `authorizeViewer(cargoId, viewer)` called by `sender`: owner-only,
grants `viewer` permission on the three handles unconditionally and sets it
as the current `authorizedViewer`; emits no event. -/
def authorizeViewer (s : ContractState) (sender : Address)
    (cargoId : String) (viewer : Address) :
    Except String (ContractState × List Event) := do
  requireB (getCargo s cargoId).exists_ "Cargo does not exist"
  requireB ((getCargo s cargoId).owner = sender) "Only cargo owner allowed"
  let c := getCargo s cargoId
  let f1 := fheAllow (fheAllow (fheAllow s.fhe c.encryptedPriority viewer)
    c.encryptedIsFragile viewer) c.encryptedValue viewer
  let s1 : ContractState := { s with fhe := f1 }
  let s2 := setCargo s1 cargoId { c with authorizedViewer := viewer }
  pure (s2, [])

/-- `getCargoId(cargoId)` viewed by `sender`: standard gate
(owner OR authorizedViewer OR isPublic), returns the stored `cargoId`. -/
def getCargoId (s : ContractState) (sender : Address) (cargoId : String) :
    Except String String := do
  requireB (getCargo s cargoId).exists_ "Cargo does not exist"
  requireB ((getCargo s cargoId).owner = sender ∨
    (getCargo s cargoId).authorizedViewer = sender ∨
    (getCargo s cargoId).isPublic) "Not authorized"
  pure (getCargo s cargoId).cargoId

/-- `getCargoDestination(cargoId)` viewed by `sender`: standard gate,
returns the stored destination. -/
def getCargoDestination (s : ContractState) (sender : Address) (cargoId : String) :
    Except String String := do
  requireB (getCargo s cargoId).exists_ "Cargo does not exist"
  requireB ((getCargo s cargoId).owner = sender ∨
    (getCargo s cargoId).authorizedViewer = sender ∨
    (getCargo s cargoId).isPublic) "Not authorized"
  pure (getCargo s cargoId).destination

/-- `getCargoStatus(cargoId)` viewed by `sender`: standard gate, returns
the stored status. -/
def getCargoStatus (s : ContractState) (sender : Address) (cargoId : String) :
    Except String String := do
  requireB (getCargo s cargoId).exists_ "Cargo does not exist"
  requireB ((getCargo s cargoId).owner = sender ∨
    (getCargo s cargoId).authorizedViewer = sender ∨
    (getCargo s cargoId).isPublic) "Not authorized"
  pure (getCargo s cargoId).status

/-- `getCargoLocation(cargoId)` viewed by `sender`: standard gate, returns
the stored location. -/
def getCargoLocation (s : ContractState) (sender : Address) (cargoId : String) :
    Except String String := do
  requireB (getCargo s cargoId).exists_ "Cargo does not exist"
  requireB ((getCargo s cargoId).owner = sender ∨
    (getCargo s cargoId).authorizedViewer = sender ∨
    (getCargo s cargoId).isPublic) "Not authorized"
  pure (getCargo s cargoId).location

/-- `isCargoPublic(cargoId)` viewed by `sender`: only the existence check,
no authorization gate; returns the `isPublic` flag.  (`sender` is unused,
exactly as `msg.sender` is unused in the source function.) -/
def isCargoPublic (s : ContractState) (_sender : Address) (cargoId : String) :
    Except String Bool := do
  requireB (getCargo s cargoId).exists_ "Cargo does not exist"
  pure (getCargo s cargoId).isPublic

/-- `getCargoOwner(cargoId)` viewed by `sender`: standard gate, returns the
stored owner. -/
def getCargoOwner (s : ContractState) (sender : Address) (cargoId : String) :
    Except String Address := do
  requireB (getCargo s cargoId).exists_ "Cargo does not exist"
  requireB ((getCargo s cargoId).owner = sender ∨
    (getCargo s cargoId).authorizedViewer = sender ∨
    (getCargo s cargoId).isPublic) "Not authorized"
  pure (getCargo s cargoId).owner

/-- `getCargoTimestamp(cargoId)` viewed by `sender`: standard gate, returns
the stored timestamp. -/
def getCargoTimestamp (s : ContractState) (sender : Address) (cargoId : String) :
    Except String Nat := do
  requireB (getCargo s cargoId).exists_ "Cargo does not exist"
  requireB ((getCargo s cargoId).owner = sender ∨
    (getCargo s cargoId).authorizedViewer = sender ∨
    (getCargo s cargoId).isPublic) "Not authorized"
  pure (getCargo s cargoId).timestamp

/-- `getOwnerCargos(owner)` viewed by `sender`: no check at all, returns
`ownerCargos[owner]`.  (`sender` is unused, as in the source.) -/
def getOwnerCargos (s : ContractState) (_sender : Address) (owner : Address) :
    Except String (List String) :=
  pure (ownerIndex s owner)

/-- `getPublicCargoDestination(cargoId)` viewed by `sender`: public-only
gate (`isPublic` must be true), caller identity ignored. -/
def getPublicCargoDestination (s : ContractState) (_sender : Address) (cargoId : String) :
    Except String String := do
  requireB (getCargo s cargoId).exists_ "Cargo does not exist"
  requireB (getCargo s cargoId).isPublic "Cargo is private"
  pure (getCargo s cargoId).destination

/-- `getPublicCargoStatus(cargoId)` viewed by `sender`: public-only gate. -/
def getPublicCargoStatus (s : ContractState) (_sender : Address) (cargoId : String) :
    Except String String := do
  requireB (getCargo s cargoId).exists_ "Cargo does not exist"
  requireB (getCargo s cargoId).isPublic "Cargo is private"
  pure (getCargo s cargoId).status

/-- `getPublicCargoLocation(cargoId)` viewed by `sender`: public-only gate. -/
def getPublicCargoLocation (s : ContractState) (_sender : Address) (cargoId : String) :
    Except String String := do
  requireB (getCargo s cargoId).exists_ "Cargo does not exist"
  requireB (getCargo s cargoId).isPublic "Cargo is private"
  pure (getCargo s cargoId).location

/-- `getPublicCargoOwner(cargoId)` viewed by `sender`: public-only gate. -/
def getPublicCargoOwner (s : ContractState) (_sender : Address) (cargoId : String) :
    Except String Address := do
  requireB (getCargo s cargoId).exists_ "Cargo does not exist"
  requireB (getCargo s cargoId).isPublic "Cargo is private"
  pure (getCargo s cargoId).owner

/-- `getEncryptedPriority(cargoId)` viewed by `sender`: encrypted-field
gate (owner OR authorizedViewer only — `isPublic` is not consulted),
returns the stored ciphertext handle. -/
def getEncryptedPriority (s : ContractState) (sender : Address) (cargoId : String) :
    Except String Nat := do
  requireB (getCargo s cargoId).exists_ "Cargo does not exist"
  requireB ((getCargo s cargoId).owner = sender ∨
    (getCargo s cargoId).authorizedViewer = sender) "Not authorized"
  pure (getCargo s cargoId).encryptedPriority

/-- `getEncryptedIsFragile(cargoId)` viewed by `sender`: encrypted-field
gate, returns the stored ciphertext handle. -/
def getEncryptedIsFragile (s : ContractState) (sender : Address) (cargoId : String) :
    Except String Nat := do
  requireB (getCargo s cargoId).exists_ "Cargo does not exist"
  requireB ((getCargo s cargoId).owner = sender ∨
    (getCargo s cargoId).authorizedViewer = sender) "Not authorized"
  pure (getCargo s cargoId).encryptedIsFragile

/-- `getEncryptedValue(cargoId)` viewed by `sender`: encrypted-field gate,
returns the stored ciphertext handle. -/
def getEncryptedValue (s : ContractState) (sender : Address) (cargoId : String) :
    Except String Nat := do
  requireB (getCargo s cargoId).exists_ "Cargo does not exist"
  requireB ((getCargo s cargoId).owner = sender ∨
    (getCargo s cargoId).authorizedViewer = sender) "Not authorized"
  pure (getCargo s cargoId).encryptedValue

/-- The contract's full external call surface, as data. -/
inductive Op where
  | createCargo (cargoId destination : String) (priority : Nat) (isFragile : Bool) (cargoValue : Nat)
  | updateStatus (cargoId status location : String)
  | updatePrivacySettings (cargoId : String) (isPublic : Bool) (authorizedViewer : Address)
  | authorizeViewer (cargoId : String) (viewer : Address)
  | getCargoId (cargoId : String)
  | getCargoDestination (cargoId : String)
  | getCargoStatus (cargoId : String)
  | getCargoLocation (cargoId : String)
  | isCargoPublic (cargoId : String)
  | getCargoOwner (cargoId : String)
  | getCargoTimestamp (cargoId : String)
  | getOwnerCargos (owner : Address)
  | getPublicCargoDestination (cargoId : String)
  | getPublicCargoStatus (cargoId : String)
  | getPublicCargoLocation (cargoId : String)
  | getPublicCargoOwner (cargoId : String)
  | getEncryptedPriority (cargoId : String)
  | getEncryptedIsFragile (cargoId : String)
  | getEncryptedValue (cargoId : String)
deriving DecidableEq, Repr

/-- One external call: dispatch to the corresponding function.  View
functions cannot mutate state (they are `view` in the source), so a
successful view call returns the pre-state with no events. -/
def step (s : ContractState) (sender : Address) (t : Nat) :
    Op → Except String (ContractState × List Event)
  | .createCargo id dest p frag v => createCargo s sender t id dest p frag v
  | .updateStatus id st loc => updateStatus s sender t id st loc
  | .updatePrivacySettings id pub viewer => updatePrivacySettings s sender id pub viewer
  | .authorizeViewer id viewer => authorizeViewer s sender id viewer
  | .getCargoId id => (getCargoId s sender id).map fun _ => (s, [])
  | .getCargoDestination id => (getCargoDestination s sender id).map fun _ => (s, [])
  | .getCargoStatus id => (getCargoStatus s sender id).map fun _ => (s, [])
  | .getCargoLocation id => (getCargoLocation s sender id).map fun _ => (s, [])
  | .isCargoPublic id => (isCargoPublic s sender id).map fun _ => (s, [])
  | .getCargoOwner id => (getCargoOwner s sender id).map fun _ => (s, [])
  | .getCargoTimestamp id => (getCargoTimestamp s sender id).map fun _ => (s, [])
  | .getOwnerCargos a => (getOwnerCargos s sender a).map fun _ => (s, [])
  | .getPublicCargoDestination id => (getPublicCargoDestination s sender id).map fun _ => (s, [])
  | .getPublicCargoStatus id => (getPublicCargoStatus s sender id).map fun _ => (s, [])
  | .getPublicCargoLocation id => (getPublicCargoLocation s sender id).map fun _ => (s, [])
  | .getPublicCargoOwner id => (getPublicCargoOwner s sender id).map fun _ => (s, [])
  | .getEncryptedPriority id => (getEncryptedPriority s sender id).map fun _ => (s, [])
  | .getEncryptedIsFragile id => (getEncryptedIsFragile s sender id).map fun _ => (s, [])
  | .getEncryptedValue id => (getEncryptedValue s sender id).map fun _ => (s, [])

/-- A transaction: caller, block timestamp, call. -/
structure Tx where
  sender : Address
  time : Nat
  op : Op
deriving DecidableEq, Repr

/-- EVM transaction semantics: a reverted call rolls the state back to the
pre-state and emits nothing. -/
def applyTx (s : ContractState) (tx : Tx) : ContractState × List Event :=
  match step s tx.sender tx.time tx.op with
  | .ok r => r
  | .error _ => (s, [])

/-- Run a list of transactions from a state. -/
def execTxs (s : ContractState) : List Tx → ContractState
  | [] => s
  | tx :: rest => execTxs (applyTx s tx).1 rest

/-- The id `a` creates in state `s` by transaction `tx`: the singleton of
the created id when `tx` is a successful `createCargo` sent by `a`, and
empty otherwise. -/
def createdHead (s : ContractState) (tx : Tx) (a : Address) : List String :=
  match tx.op, step s tx.sender tx.time tx.op with
  | .createCargo id _ _ _ _, .ok _ => if tx.sender = a then [id] else []
  | _, _ => []

/-- The ids a given address successfully creates along a transaction list
starting from `s`, in order. -/
def createdIds (s : ContractState) (txs : List Tx) (a : Address) : List String :=
  match txs with
  | [] => []
  | tx :: rest => createdHead s tx a ++ createdIds (applyTx s tx).1 rest a

/-! ### Store lemmas -/

theorem lookupA_setA_self {α β : Type} [DecidableEq α] (l : List (α × β)) (k : α) (v : β) :
    lookupA (setA l k v) k = some v := by
  induction l with
  | nil => simp [setA, lookupA]
  | cons hd tl ih =>
    by_cases h : hd.1 = k <;> simp [setA, lookupA, h, ih]

theorem lookupA_setA_ne {α β : Type} [DecidableEq α] (l : List (α × β)) (k k' : α) (v : β)
    (h : k' ≠ k) : lookupA (setA l k v) k' = lookupA l k' := by
  have h2 : k ≠ k' := Ne.symm h
  induction l with
  | nil => simp [setA, lookupA, h2]
  | cons hd tl ih =>
    obtain ⟨k0, v0⟩ := hd
    by_cases hk : k0 = k
    · subst hk
      simp [setA, lookupA, h2]
    · by_cases hk' : k0 = k' <;> simp [setA, lookupA, hk, hk', ih, h]

theorem getCargo_setCargo_self (s : ContractState) (id : String) (c : Cargo) :
    getCargo (setCargo s id c) id = c := by
  simp [getCargo, setCargo, lookupA_setA_self]

theorem getCargo_setCargo_ne (s : ContractState) (id id' : String) (c : Cargo)
    (h : id' ≠ id) : getCargo (setCargo s id c) id' = getCargo s id' := by
  simp [getCargo, setCargo, lookupA_setA_ne _ _ _ _ h]

theorem getCargo_pushOwnerCargo (s : ContractState) (a : Address) (id id' : String) :
    getCargo (pushOwnerCargo s a id) id' = getCargo s id' := rfl

theorem getCargo_fheUpdate (s : ContractState) (f : FHEState) (id : String) :
    getCargo { s with fhe := f } id = getCargo s id := rfl

theorem ownerIndex_setCargo (s : ContractState) (id : String) (c : Cargo) (a : Address) :
    ownerIndex (setCargo s id c) a = ownerIndex s a := rfl

theorem ownerIndex_pushOwnerCargo_self (s : ContractState) (a : Address) (id : String) :
    ownerIndex (pushOwnerCargo s a id) a = ownerIndex s a ++ [id] := by
  simp [ownerIndex, pushOwnerCargo, lookupA_setA_self]

theorem ownerIndex_pushOwnerCargo_ne (s : ContractState) (a a' : Address) (id : String)
    (h : a' ≠ a) : ownerIndex (pushOwnerCargo s a id) a' = ownerIndex s a' := by
  simp [ownerIndex, pushOwnerCargo, lookupA_setA_ne _ _ _ _ h]

/-! ### Gate predicates and accessor characterizations -/

/-- The standard read gate of the source modifiers/getters:
owner OR authorizedViewer OR isPublic. -/
def standardGate (s : ContractState) (sender : Address) (id : String) : Prop :=
  (getCargo s id).owner = sender ∨ (getCargo s id).authorizedViewer = sender ∨
    (getCargo s id).isPublic = true

/-- The encrypted-field gate: owner OR authorizedViewer, `isPublic` not
consulted. -/
def encryptedGate (s : ContractState) (sender : Address) (id : String) : Prop :=
  (getCargo s id).owner = sender ∨ (getCargo s id).authorizedViewer = sender

instance (s : ContractState) (sender : Address) (id : String) :
    Decidable (standardGate s sender id) := by
  unfold standardGate; infer_instance

instance (s : ContractState) (sender : Address) (id : String) :
    Decidable (encryptedGate s sender id) := by
  unfold encryptedGate; infer_instance

theorem getCargoStatus_ok_iff (s : ContractState) (sender : Address) (id : String) (r : String) :
    getCargoStatus s sender id = Except.ok r ↔
      (getCargo s id).exists_ = true ∧ standardGate s sender id ∧
        (getCargo s id).status = r := by
  simp [getCargoStatus, requireB, standardGate]
  split <;> split <;>
    simp_all [Bind.bind, Except.bind, Functor.map, Except.map, SeqRight.seqRight]

theorem getCargoId_ok_iff (s : ContractState) (sender : Address) (id : String) (r : String) :
    getCargoId s sender id = Except.ok r ↔
      (getCargo s id).exists_ = true ∧ standardGate s sender id ∧
        (getCargo s id).cargoId = r := by
  simp [getCargoId, requireB, standardGate]
  split <;> split <;>
    simp_all [Bind.bind, Except.bind, Functor.map, Except.map, SeqRight.seqRight]

theorem getCargoDestination_ok_iff (s : ContractState) (sender : Address) (id : String)
    (r : String) :
    getCargoDestination s sender id = Except.ok r ↔
      (getCargo s id).exists_ = true ∧ standardGate s sender id ∧
        (getCargo s id).destination = r := by
  simp [getCargoDestination, requireB, standardGate]
  split <;> split <;>
    simp_all [Bind.bind, Except.bind, Functor.map, Except.map, SeqRight.seqRight]

theorem getCargoLocation_ok_iff (s : ContractState) (sender : Address) (id : String)
    (r : String) :
    getCargoLocation s sender id = Except.ok r ↔
      (getCargo s id).exists_ = true ∧ standardGate s sender id ∧
        (getCargo s id).location = r := by
  simp [getCargoLocation, requireB, standardGate]
  split <;> split <;>
    simp_all [Bind.bind, Except.bind, Functor.map, Except.map, SeqRight.seqRight]

theorem getCargoOwner_ok_iff (s : ContractState) (sender : Address) (id : String)
    (r : Address) :
    getCargoOwner s sender id = Except.ok r ↔
      (getCargo s id).exists_ = true ∧ standardGate s sender id ∧
        (getCargo s id).owner = r := by
  simp [getCargoOwner, requireB, standardGate]
  split <;> split <;>
    simp_all [Bind.bind, Except.bind, Functor.map, Except.map, SeqRight.seqRight]

theorem getCargoTimestamp_ok_iff (s : ContractState) (sender : Address) (id : String)
    (r : Nat) :
    getCargoTimestamp s sender id = Except.ok r ↔
      (getCargo s id).exists_ = true ∧ standardGate s sender id ∧
        (getCargo s id).timestamp = r := by
  simp [getCargoTimestamp, requireB, standardGate]
  split <;> split <;>
    simp_all [Bind.bind, Except.bind, Functor.map, Except.map, SeqRight.seqRight]

theorem isCargoPublic_ok_iff (s : ContractState) (sender : Address) (id : String) (r : Bool) :
    isCargoPublic s sender id = Except.ok r ↔
      (getCargo s id).exists_ = true ∧ (getCargo s id).isPublic = r := by
  simp [isCargoPublic, requireB]
  split <;>
    simp_all [Bind.bind, Except.bind, Functor.map, Except.map, SeqRight.seqRight]

theorem getOwnerCargos_ok_iff (s : ContractState) (sender : Address) (a : Address)
    (r : List String) :
    getOwnerCargos s sender a = Except.ok r ↔ ownerIndex s a = r := by
  simp [getOwnerCargos, pure, Except.pure]

theorem getPublicCargoDestination_ok_iff (s : ContractState) (sender : Address) (id : String)
    (r : String) :
    getPublicCargoDestination s sender id = Except.ok r ↔
      (getCargo s id).exists_ = true ∧ (getCargo s id).isPublic = true ∧
        (getCargo s id).destination = r := by
  simp [getPublicCargoDestination, requireB]
  split <;> split <;>
    simp_all [Bind.bind, Except.bind, Functor.map, Except.map, SeqRight.seqRight]

theorem getPublicCargoStatus_ok_iff (s : ContractState) (sender : Address) (id : String)
    (r : String) :
    getPublicCargoStatus s sender id = Except.ok r ↔
      (getCargo s id).exists_ = true ∧ (getCargo s id).isPublic = true ∧
        (getCargo s id).status = r := by
  simp [getPublicCargoStatus, requireB]
  split <;> split <;>
    simp_all [Bind.bind, Except.bind, Functor.map, Except.map, SeqRight.seqRight]

theorem getPublicCargoLocation_ok_iff (s : ContractState) (sender : Address) (id : String)
    (r : String) :
    getPublicCargoLocation s sender id = Except.ok r ↔
      (getCargo s id).exists_ = true ∧ (getCargo s id).isPublic = true ∧
        (getCargo s id).location = r := by
  simp [getPublicCargoLocation, requireB]
  split <;> split <;>
    simp_all [Bind.bind, Except.bind, Functor.map, Except.map, SeqRight.seqRight]

theorem getPublicCargoOwner_ok_iff (s : ContractState) (sender : Address) (id : String)
    (r : Address) :
    getPublicCargoOwner s sender id = Except.ok r ↔
      (getCargo s id).exists_ = true ∧ (getCargo s id).isPublic = true ∧
        (getCargo s id).owner = r := by
  simp [getPublicCargoOwner, requireB]
  split <;> split <;>
    simp_all [Bind.bind, Except.bind, Functor.map, Except.map, SeqRight.seqRight]

theorem getEncryptedPriority_ok_iff (s : ContractState) (sender : Address) (id : String)
    (r : Nat) :
    getEncryptedPriority s sender id = Except.ok r ↔
      (getCargo s id).exists_ = true ∧ encryptedGate s sender id ∧
        (getCargo s id).encryptedPriority = r := by
  simp [getEncryptedPriority, requireB, encryptedGate]
  split <;> split <;>
    simp_all [Bind.bind, Except.bind, Functor.map, Except.map, SeqRight.seqRight]

theorem getEncryptedIsFragile_ok_iff (s : ContractState) (sender : Address) (id : String)
    (r : Nat) :
    getEncryptedIsFragile s sender id = Except.ok r ↔
      (getCargo s id).exists_ = true ∧ encryptedGate s sender id ∧
        (getCargo s id).encryptedIsFragile = r := by
  simp [getEncryptedIsFragile, requireB, encryptedGate]
  split <;> split <;>
    simp_all [Bind.bind, Except.bind, Functor.map, Except.map, SeqRight.seqRight]

theorem getEncryptedValue_ok_iff (s : ContractState) (sender : Address) (id : String)
    (r : Nat) :
    getEncryptedValue s sender id = Except.ok r ↔
      (getCargo s id).exists_ = true ∧ encryptedGate s sender id ∧
        (getCargo s id).encryptedValue = r := by
  simp [getEncryptedValue, requireB, encryptedGate]
  split <;> split <;>
    simp_all [Bind.bind, Except.bind, Functor.map, Except.map, SeqRight.seqRight]

/-! ### Mutator characterizations -/

theorem string_pos_length_iff (s : String) : 0 < s.length ↔ s ≠ "" := by
  constructor
  · intro h he
    subst he
    simp at h
  · intro h
    by_contra h2
    apply h
    cases s with
    | mk data =>
      simp [String.length] at h2
      simp [h2]

theorem updateStatus_ok_iff (s : ContractState) (sender : Address) (t : Nat)
    (id st loc : String) (r : ContractState × List Event) :
    updateStatus s sender t id st loc = Except.ok r ↔
      (getCargo s id).exists_ = true ∧ (getCargo s id).owner = sender ∧
        (setCargo s id
            { getCargo s id with status := st, location := loc, timestamp := t },
           [Event.cargoStatusUpdated id st loc]) = r := by
  simp [updateStatus, requireB]
  split <;> split <;>
    simp_all [Bind.bind, Except.bind, Functor.map, Except.map, SeqRight.seqRight]

theorem updatePrivacySettings_ok_iff (s : ContractState) (sender : Address)
    (id : String) (pub : Bool) (viewer : Address) (r : ContractState × List Event) :
    updatePrivacySettings s sender id pub viewer = Except.ok r ↔
      (getCargo s id).exists_ = true ∧ (getCargo s id).owner = sender ∧
        ((if viewer ≠ 0 then
            { setCargo s id
                { getCargo s id with isPublic := pub, authorizedViewer := viewer } with
              fhe := fheAllow (fheAllow (fheAllow s.fhe
                  (getCargo s id).encryptedPriority viewer)
                (getCargo s id).encryptedIsFragile viewer)
                (getCargo s id).encryptedValue viewer }
          else
            setCargo s id
              { getCargo s id with isPublic := pub, authorizedViewer := viewer }),
         [Event.cargoPrivacyUpdated id pub]) = r := by
  simp [updatePrivacySettings, requireB, setCargo]
  split <;> split <;> split <;>
    simp_all [Bind.bind, Except.bind, Functor.map, Except.map, SeqRight.seqRight]

theorem authorizeViewer_ok_iff (s : ContractState) (sender : Address)
    (id : String) (viewer : Address) (r : ContractState × List Event) :
    authorizeViewer s sender id viewer = Except.ok r ↔
      (getCargo s id).exists_ = true ∧ (getCargo s id).owner = sender ∧
        ({ setCargo s id { getCargo s id with authorizedViewer := viewer } with
           fhe := fheAllow (fheAllow (fheAllow s.fhe
               (getCargo s id).encryptedPriority viewer)
             (getCargo s id).encryptedIsFragile viewer)
             (getCargo s id).encryptedValue viewer },
         []) = r := by
  simp [authorizeViewer, requireB, setCargo]
  split <;> split <;>
    simp_all [Bind.bind, Except.bind, Functor.map, Except.map, SeqRight.seqRight]

theorem createCargo_ok_iff (s : ContractState) (sender : Address) (t : Nat)
    (id dest : String) (p : Nat) (frag : Bool) (v : Nat) (r : ContractState × List Event) :
    createCargo s sender t id dest p frag v = Except.ok r ↔
      (getCargo s id).exists_ = false ∧ id ≠ "" ∧ dest ≠ "" ∧ p ≤ 3 ∧
        (pushOwnerCargo
            (setCargo
              { s with fhe :=
                  { nextHandle := s.fhe.nextHandle + 1 + 1 + 1
                    plain := (s.fhe.nextHandle + 1 + 1, v) ::
                      (s.fhe.nextHandle + 1, if frag then 1 else 0) ::
                      (s.fhe.nextHandle, p) :: s.fhe.plain
                    acl := (s.fhe.nextHandle + 1 + 1, sender) ::
                      (s.fhe.nextHandle + 1, sender) ::
                      (s.fhe.nextHandle, sender) :: s.fhe.acl
                    aclThis := (s.fhe.nextHandle + 1 + 1) :: (s.fhe.nextHandle + 1) ::
                      s.fhe.nextHandle :: s.fhe.aclThis } }
              id
              { cargoId := id, destination := dest, status := "Created"
                location := "Origin"
                encryptedPriority := s.fhe.nextHandle
                encryptedIsFragile := s.fhe.nextHandle + 1
                encryptedValue := s.fhe.nextHandle + 1 + 1
                owner := sender, authorizedViewer := 0, timestamp := t
                isPublic := false, exists_ := true })
            sender id,
         [Event.cargoCreated id sender]) = r := by
  simp [createCargo, requireB, fheEncrypt, fheAllow, fheAllowThis, string_pos_length_iff]
  repeat' split
  all_goals
    simp_all [Bind.bind, Except.bind, Functor.map, Except.map, SeqRight.seqRight]

/-! ### Generic Except helpers and sample states -/

theorem except_error_of_not_ok {ε α : Type} (e : Except ε α)
    (h : ∀ r, e ≠ Except.ok r) : ∃ m, e = Except.error m := by
  cases e with
  | error m => exact ⟨m, rfl⟩
  | ok r => exact absurd rfl (h r)

theorem except_map_ok {ε α β : Type} (f : α → β) (e : Except ε α) (b : β)
    (h : Except.map f e = Except.ok b) : ∃ a, e = Except.ok a ∧ f a = b := by
  cases e with
  | error m => simp [Except.map] at h
  | ok a =>
    simp [Except.map] at h
    exact ⟨a, rfl, h⟩

/-- Sample address: the creator/owner in the concrete scenarios. -/
def aliceA : Address := 1

/-- Sample address: an unrelated caller. -/
def bobA : Address := 2

/-- Sample address: the address the owner designates as viewer. -/
def carolA : Address := 3

/-- A concrete state: `aliceA` has created cargo `"C1"` on the fresh
contract. -/
def sCreated : ContractState :=
  (applyTx initialState ⟨aliceA, 100, Op.createCargo "C1" "Paris" 2 false 500⟩).1

/-- `sCreated` after the owner designates `carolA` as authorized viewer
(record stays private). -/
def sViewer : ContractState :=
  (applyTx sCreated ⟨aliceA, 101, Op.updatePrivacySettings "C1" false carolA⟩).1

/-- `sCreated` after the owner makes the record public with no viewer. -/
def sPublic : ContractState :=
  (applyTx sCreated ⟨aliceA, 102, Op.updatePrivacySettings "C1" true 0⟩).1

/-! ### Claims -/

/-- C3: for every record id and caller, each of `getCargoId`,
`getCargoDestination`, `getCargoStatus`, `getCargoLocation`,
`getCargoOwner` and `getCargoTimestamp` succeeds if and only if the record
exists and the caller is the owner, the current authorized viewer, or the
record is public; on success it returns the corresponding stored field, and
otherwise the call aborts with an error and no result. -/
theorem C3_standard_gate_accessors (s : ContractState) (sender : Address) (id : String) :
    (∀ r, getCargoId s sender id = Except.ok r ↔
      (getCargo s id).exists_ = true ∧ standardGate s sender id ∧
        (getCargo s id).cargoId = r) ∧
    (∀ r, getCargoDestination s sender id = Except.ok r ↔
      (getCargo s id).exists_ = true ∧ standardGate s sender id ∧
        (getCargo s id).destination = r) ∧
    (∀ r, getCargoStatus s sender id = Except.ok r ↔
      (getCargo s id).exists_ = true ∧ standardGate s sender id ∧
        (getCargo s id).status = r) ∧
    (∀ r, getCargoLocation s sender id = Except.ok r ↔
      (getCargo s id).exists_ = true ∧ standardGate s sender id ∧
        (getCargo s id).location = r) ∧
    (∀ r, getCargoOwner s sender id = Except.ok r ↔
      (getCargo s id).exists_ = true ∧ standardGate s sender id ∧
        (getCargo s id).owner = r) ∧
    (∀ r, getCargoTimestamp s sender id = Except.ok r ↔
      (getCargo s id).exists_ = true ∧ standardGate s sender id ∧
        (getCargo s id).timestamp = r) ∧
    (¬((getCargo s id).exists_ = true ∧ standardGate s sender id) →
      (∃ m, getCargoId s sender id = Except.error m) ∧
      (∃ m, getCargoDestination s sender id = Except.error m) ∧
      (∃ m, getCargoStatus s sender id = Except.error m) ∧
      (∃ m, getCargoLocation s sender id = Except.error m) ∧
      (∃ m, getCargoOwner s sender id = Except.error m) ∧
      (∃ m, getCargoTimestamp s sender id = Except.error m)) := by
  refine ⟨getCargoId_ok_iff s sender id, getCargoDestination_ok_iff s sender id,
    getCargoStatus_ok_iff s sender id, getCargoLocation_ok_iff s sender id,
    getCargoOwner_ok_iff s sender id, getCargoTimestamp_ok_iff s sender id, fun hng => ?_⟩
  refine ⟨except_error_of_not_ok _ fun r hok => hng ?_,
    except_error_of_not_ok _ fun r hok => hng ?_,
    except_error_of_not_ok _ fun r hok => hng ?_,
    except_error_of_not_ok _ fun r hok => hng ?_,
    except_error_of_not_ok _ fun r hok => hng ?_,
    except_error_of_not_ok _ fun r hok => hng ?_⟩
  · have h := (getCargoId_ok_iff s sender id r).mp hok
    exact ⟨h.1, h.2.1⟩
  · have h := (getCargoDestination_ok_iff s sender id r).mp hok
    exact ⟨h.1, h.2.1⟩
  · have h := (getCargoStatus_ok_iff s sender id r).mp hok
    exact ⟨h.1, h.2.1⟩
  · have h := (getCargoLocation_ok_iff s sender id r).mp hok
    exact ⟨h.1, h.2.1⟩
  · have h := (getCargoOwner_ok_iff s sender id r).mp hok
    exact ⟨h.1, h.2.1⟩
  · have h := (getCargoTimestamp_ok_iff s sender id r).mp hok
    exact ⟨h.1, h.2.1⟩

/-- Witness for C3: on the concrete created record, the owner reads
status `"Created"`, and an unrelated caller's read aborts. -/
theorem C3_witness :
    getCargoStatus sCreated aliceA "C1" = Except.ok "Created" ∧
    (∃ m, getCargoStatus sCreated bobA "C1" = Except.error m) := by
  refine ⟨((C3_standard_gate_accessors sCreated aliceA "C1").2.2.1 "Created").mpr (by decide),
    ((C3_standard_gate_accessors sCreated bobA "C1").2.2.2.2.2.2 (by decide)).2.2.1⟩

/-- C4: each of `getPublicCargoDestination`, `getPublicCargoStatus`,
`getPublicCargoLocation` and `getPublicCargoOwner` succeeds if and only if
the record exists and is public, independent of caller identity: the result
is the same for every caller, and when the record exists but is not public
every caller — owner and viewer included — gets an error. -/
theorem C4_public_only_gate (s : ContractState) (sender : Address) (id : String) :
    (∀ r, getPublicCargoDestination s sender id = Except.ok r ↔
      (getCargo s id).exists_ = true ∧ (getCargo s id).isPublic = true ∧
        (getCargo s id).destination = r) ∧
    (∀ r, getPublicCargoStatus s sender id = Except.ok r ↔
      (getCargo s id).exists_ = true ∧ (getCargo s id).isPublic = true ∧
        (getCargo s id).status = r) ∧
    (∀ r, getPublicCargoLocation s sender id = Except.ok r ↔
      (getCargo s id).exists_ = true ∧ (getCargo s id).isPublic = true ∧
        (getCargo s id).location = r) ∧
    (∀ r, getPublicCargoOwner s sender id = Except.ok r ↔
      (getCargo s id).exists_ = true ∧ (getCargo s id).isPublic = true ∧
        (getCargo s id).owner = r) ∧
    (∀ sender',
      getPublicCargoDestination s sender id = getPublicCargoDestination s sender' id ∧
      getPublicCargoStatus s sender id = getPublicCargoStatus s sender' id ∧
      getPublicCargoLocation s sender id = getPublicCargoLocation s sender' id ∧
      getPublicCargoOwner s sender id = getPublicCargoOwner s sender' id) ∧
    (¬((getCargo s id).exists_ = true ∧ (getCargo s id).isPublic = true) →
      (∃ m, getPublicCargoDestination s sender id = Except.error m) ∧
      (∃ m, getPublicCargoStatus s sender id = Except.error m) ∧
      (∃ m, getPublicCargoLocation s sender id = Except.error m) ∧
      (∃ m, getPublicCargoOwner s sender id = Except.error m)) := by
  refine ⟨getPublicCargoDestination_ok_iff s sender id,
    getPublicCargoStatus_ok_iff s sender id,
    getPublicCargoLocation_ok_iff s sender id,
    getPublicCargoOwner_ok_iff s sender id,
    fun sender' => ⟨rfl, rfl, rfl, rfl⟩, fun hng => ?_⟩
  refine ⟨except_error_of_not_ok _ fun r hok => hng ?_,
    except_error_of_not_ok _ fun r hok => hng ?_,
    except_error_of_not_ok _ fun r hok => hng ?_,
    except_error_of_not_ok _ fun r hok => hng ?_⟩
  · have h := (getPublicCargoDestination_ok_iff s sender id r).mp hok
    exact ⟨h.1, h.2.1⟩
  · have h := (getPublicCargoStatus_ok_iff s sender id r).mp hok
    exact ⟨h.1, h.2.1⟩
  · have h := (getPublicCargoLocation_ok_iff s sender id r).mp hok
    exact ⟨h.1, h.2.1⟩
  · have h := (getPublicCargoOwner_ok_iff s sender id r).mp hok
    exact ⟨h.1, h.2.1⟩

/-- Witness for C4: on the concrete public record an unrelated caller
reads the destination, and on the private record even the owner's
public-path read aborts. -/
theorem C4_witness :
    getPublicCargoDestination sPublic bobA "C1" = Except.ok "Paris" ∧
    (∃ m, getPublicCargoDestination sCreated aliceA "C1" = Except.error m) := by
  refine ⟨((C4_public_only_gate sPublic bobA "C1").1 "Paris").mpr (by decide),
    ((C4_public_only_gate sCreated aliceA "C1").2.2.2.2.2 (by decide)).1⟩

/-- C9: `isCargoPublic` applies no authorization gate: it succeeds for
every caller exactly when the record exists, returning the `isPublic`
flag (its result does not depend on the caller), and fails only when the
record is absent. -/
theorem C9_isCargoPublic_ungated (s : ContractState) (sender : Address) (id : String) :
    (∀ r, isCargoPublic s sender id = Except.ok r ↔
      (getCargo s id).exists_ = true ∧ (getCargo s id).isPublic = r) ∧
    (∀ sender', isCargoPublic s sender id = isCargoPublic s sender' id) ∧
    ((getCargo s id).exists_ = true →
      isCargoPublic s sender id = Except.ok (getCargo s id).isPublic) ∧
    ((getCargo s id).exists_ = false →
      ∃ m, isCargoPublic s sender id = Except.error m) := by
  refine ⟨isCargoPublic_ok_iff s sender id, fun sender' => rfl,
    fun hex => (isCargoPublic_ok_iff s sender id _).mpr ⟨hex, rfl⟩, fun hne => ?_⟩
  refine except_error_of_not_ok _ fun r hok => ?_
  have h := (isCargoPublic_ok_iff s sender id r).mp hok
  rw [h.1] at hne
  exact Bool.noConfusion hne

/-- Witness for C9: an unrelated caller reads the flag of the private
concrete record and gets `false`; querying an absent id aborts. -/
theorem C9_witness :
    isCargoPublic sCreated bobA "C1" = Except.ok false ∧
    (∃ m, isCargoPublic sCreated bobA "C2" = Except.error m) := by
  refine ⟨((C9_isCargoPublic_ungated sCreated bobA "C1").1 false).mpr (by decide),
    (C9_isCargoPublic_ungated sCreated bobA "C2").2.2.2 (by decide)⟩

theorem updatePrivacySettings_getCargo (s : ContractState) (sender : Address)
    (id : String) (pub : Bool) (viewer : Address) (s' : ContractState) (evs : List Event)
    (h : updatePrivacySettings s sender id pub viewer = Except.ok (s', evs)) :
    getCargo s' id = { getCargo s id with isPublic := pub, authorizedViewer := viewer } := by
  obtain ⟨he, ho, hr⟩ := (updatePrivacySettings_ok_iff s sender id pub viewer _).mp h
  have hs : s' = _ := (congrArg Prod.fst hr).symm
  rw [hs]
  split <;> simp [getCargo, setCargo, lookupA_setA_self]

theorem authorizeViewer_getCargo (s : ContractState) (sender : Address)
    (id : String) (viewer : Address) (s' : ContractState) (evs : List Event)
    (h : authorizeViewer s sender id viewer = Except.ok (s', evs)) :
    getCargo s' id = { getCargo s id with authorizedViewer := viewer } := by
  obtain ⟨h1, h2, hr⟩ := (authorizeViewer_ok_iff s sender id viewer _).mp h
  have hs : _ = s' := congrArg Prod.fst hr
  rw [← hs, getCargo_fheUpdate, getCargo_setCargo_self]

/-- The record `sViewer` reaches after the owner replaces viewer `carolA`
with `bobA` through `updatePrivacySettings`. -/
def sReplaced : ContractState :=
  (applyTx sViewer ⟨aliceA, 103, Op.updatePrivacySettings "C1" false bobA⟩).1

/-- The record `sViewer` reaches after the owner replaces viewer `carolA`
with `bobA` through `authorizeViewer`. -/
def sAuthBob : ContractState :=
  (applyTx sViewer ⟨aliceA, 107, Op.authorizeViewer "C1" bobA⟩).1

/-- C1: each encrypted-field accessor succeeds if and only if the record
exists and the caller is the owner or the current authorized viewer, in
which case it returns the stored ciphertext handle; a public record grants
no access to callers outside that pair, and after the owner replaces the
authorized viewer with a different address the previous viewer (when not
the owner) fails all three accessors. -/
theorem C1_encrypted_field_gate (s : ContractState) (sender : Address) (id : String) :
    (∀ r, getEncryptedPriority s sender id = Except.ok r ↔
      (getCargo s id).exists_ = true ∧ encryptedGate s sender id ∧
        (getCargo s id).encryptedPriority = r) ∧
    (∀ r, getEncryptedIsFragile s sender id = Except.ok r ↔
      (getCargo s id).exists_ = true ∧ encryptedGate s sender id ∧
        (getCargo s id).encryptedIsFragile = r) ∧
    (∀ r, getEncryptedValue s sender id = Except.ok r ↔
      (getCargo s id).exists_ = true ∧ encryptedGate s sender id ∧
        (getCargo s id).encryptedValue = r) ∧
    ((getCargo s id).isPublic = true → ¬encryptedGate s sender id →
      (∃ m, getEncryptedPriority s sender id = Except.error m) ∧
      (∃ m, getEncryptedIsFragile s sender id = Except.error m) ∧
      (∃ m, getEncryptedValue s sender id = Except.error m)) ∧
    (∀ pub newV s' evs, updatePrivacySettings s sender id pub newV = Except.ok (s', evs) →
      ∀ oldV, oldV = (getCargo s id).authorizedViewer → newV ≠ oldV →
        oldV ≠ (getCargo s id).owner →
        (∃ m, getEncryptedPriority s' oldV id = Except.error m) ∧
        (∃ m, getEncryptedIsFragile s' oldV id = Except.error m) ∧
        (∃ m, getEncryptedValue s' oldV id = Except.error m)) ∧
    (∀ newV s' evs, authorizeViewer s sender id newV = Except.ok (s', evs) →
      ∀ oldV, oldV = (getCargo s id).authorizedViewer → newV ≠ oldV →
        oldV ≠ (getCargo s id).owner →
        (∃ m, getEncryptedPriority s' oldV id = Except.error m) ∧
        (∃ m, getEncryptedIsFragile s' oldV id = Except.error m) ∧
        (∃ m, getEncryptedValue s' oldV id = Except.error m)) := by
  refine ⟨getEncryptedPriority_ok_iff s sender id, getEncryptedIsFragile_ok_iff s sender id,
    getEncryptedValue_ok_iff s sender id, fun _ hng => ?_, ?_, ?_⟩
  · refine ⟨except_error_of_not_ok _ fun r hok => hng ?_,
      except_error_of_not_ok _ fun r hok => hng ?_,
      except_error_of_not_ok _ fun r hok => hng ?_⟩
    · exact ((getEncryptedPriority_ok_iff s sender id r).mp hok).2.1
    · exact ((getEncryptedIsFragile_ok_iff s sender id r).mp hok).2.1
    · exact ((getEncryptedValue_ok_iff s sender id r).mp hok).2.1
  · intro pub newV s' evs hup oldV hold hnew hnotOwner
    have hrec := updatePrivacySettings_getCargo s sender id pub newV s' evs hup
    have hgate : ¬encryptedGate s' oldV id := by
      unfold encryptedGate
      rw [hrec]
      intro hg
      rcases hg with h | h
      · simp at h
        exact hnotOwner h.symm
      · simp at h
        exact hnew h
    refine ⟨except_error_of_not_ok _ fun r hok => hgate ?_,
      except_error_of_not_ok _ fun r hok => hgate ?_,
      except_error_of_not_ok _ fun r hok => hgate ?_⟩
    · exact ((getEncryptedPriority_ok_iff s' oldV id r).mp hok).2.1
    · exact ((getEncryptedIsFragile_ok_iff s' oldV id r).mp hok).2.1
    · exact ((getEncryptedValue_ok_iff s' oldV id r).mp hok).2.1
  · intro newV s' evs hup oldV hold hnew hnotOwner
    have hrec := authorizeViewer_getCargo s sender id newV s' evs hup
    have hgate : ¬encryptedGate s' oldV id := by
      unfold encryptedGate
      rw [hrec]
      intro hg
      rcases hg with h | h
      · simp at h
        exact hnotOwner h.symm
      · simp at h
        exact hnew h
    refine ⟨except_error_of_not_ok _ fun r hok => hgate ?_,
      except_error_of_not_ok _ fun r hok => hgate ?_,
      except_error_of_not_ok _ fun r hok => hgate ?_⟩
    · exact ((getEncryptedPriority_ok_iff s' oldV id r).mp hok).2.1
    · exact ((getEncryptedIsFragile_ok_iff s' oldV id r).mp hok).2.1
    · exact ((getEncryptedValue_ok_iff s' oldV id r).mp hok).2.1

/-- Witness for C1: the designated viewer reads the priority handle; an
unrelated caller fails on the public record; after the owner replaces the
viewer, the previous viewer fails. -/
theorem C1_witness :
    getEncryptedPriority sViewer carolA "C1" = Except.ok 0 ∧
    (∃ m, getEncryptedPriority sPublic bobA "C1" = Except.error m) ∧
    (∃ m, getEncryptedValue sReplaced carolA "C1" = Except.error m) ∧
    (∃ m, getEncryptedIsFragile sAuthBob carolA "C1" = Except.error m) := by
  refine ⟨((C1_encrypted_field_gate sViewer carolA "C1").1 0).mpr (by decide),
    ((C1_encrypted_field_gate sPublic bobA "C1").2.2.2.1 (by decide) (by decide)).1,
    ((C1_encrypted_field_gate sViewer aliceA "C1").2.2.2.2.1 false bobA sReplaced
      [Event.cargoPrivacyUpdated "C1" false] rfl carolA (by decide)
      (by decide) (by decide)).2.2,
    ((C1_encrypted_field_gate sViewer aliceA "C1").2.2.2.2.2 bobA sAuthBob
      [] rfl carolA (by decide) (by decide) (by decide)).2.1⟩

/-- C2: `createCargo` fails exactly when the id is taken, the id or the
destination is empty, or the priority exceeds 3; on success it stores the
record with status `"Created"`, location `"Origin"`, `isPublic = false`,
no viewer, owner = caller and the three fresh ciphertext handles, records
the three plaintexts with the encryption library, grants the contract and
the caller permission on each handle, appends the id to the caller's index,
and emits the creation event. -/
theorem C2_createCargo (s : ContractState) (sender : Address) (t : Nat)
    (id dest : String) (p : Nat) (frag : Bool) (v : Nat) :
    ((∃ r, createCargo s sender t id dest p frag v = Except.ok r) ↔
      (getCargo s id).exists_ = false ∧ id ≠ "" ∧ dest ≠ "" ∧ p ≤ 3) ∧
    (∀ s' evs, createCargo s sender t id dest p frag v = Except.ok (s', evs) →
      getCargo s' id =
        { cargoId := id, destination := dest, status := "Created", location := "Origin"
          encryptedPriority := s.fhe.nextHandle
          encryptedIsFragile := s.fhe.nextHandle + 1
          encryptedValue := s.fhe.nextHandle + 2
          owner := sender, authorizedViewer := 0, timestamp := t
          isPublic := false, exists_ := true } ∧
      (s.fhe.nextHandle, p) ∈ s'.fhe.plain ∧
      (s.fhe.nextHandle + 1, if frag then 1 else 0) ∈ s'.fhe.plain ∧
      (s.fhe.nextHandle + 2, v) ∈ s'.fhe.plain ∧
      s.fhe.nextHandle ∈ s'.fhe.aclThis ∧
      s.fhe.nextHandle + 1 ∈ s'.fhe.aclThis ∧
      s.fhe.nextHandle + 2 ∈ s'.fhe.aclThis ∧
      (s.fhe.nextHandle, sender) ∈ s'.fhe.acl ∧
      (s.fhe.nextHandle + 1, sender) ∈ s'.fhe.acl ∧
      (s.fhe.nextHandle + 2, sender) ∈ s'.fhe.acl ∧
      ownerIndex s' sender = ownerIndex s sender ++ [id] ∧
      evs = [Event.cargoCreated id sender]) := by
  constructor
  · constructor
    · rintro ⟨r, hok⟩
      have h := (createCargo_ok_iff s sender t id dest p frag v r).mp hok
      exact ⟨h.1, h.2.1, h.2.2.1, h.2.2.2.1⟩
    · rintro ⟨h1, h2, h3, h4⟩
      exact ⟨_, (createCargo_ok_iff s sender t id dest p frag v _).mpr
        ⟨h1, h2, h3, h4, rfl⟩⟩
  · intro s' evs hok
    obtain ⟨h1, h2, h3, h4, hr⟩ := (createCargo_ok_iff s sender t id dest p frag v _).mp hok
    rw [Prod.ext_iff] at hr
    obtain ⟨hs, he⟩ := hr
    subst hs
    subst he
    refine ⟨?_, ?_, ?_, ?_, ?_, ?_, ?_, ?_, ?_, ?_, ?_, rfl⟩
    · rw [getCargo_pushOwnerCargo, getCargo_setCargo_self]
    · simp [pushOwnerCargo, setCargo]
    · simp [pushOwnerCargo, setCargo]
    · simp [pushOwnerCargo, setCargo]
    · simp [pushOwnerCargo, setCargo]
    · simp [pushOwnerCargo, setCargo]
    · simp [pushOwnerCargo, setCargo]
    · simp [pushOwnerCargo, setCargo]
    · simp [pushOwnerCargo, setCargo]
    · simp [pushOwnerCargo, setCargo]
    · rw [ownerIndex_pushOwnerCargo_self, ownerIndex_setCargo]
      rfl

/-- Witness for C2: the concrete creation on the fresh contract stores the
expected record, records plaintexts and permissions for the three handles
0, 1, 2, and appends `"C1"` to the creator's index. -/
theorem C2_witness :
    getCargo sCreated "C1" =
      { cargoId := "C1", destination := "Paris", status := "Created"
        location := "Origin", encryptedPriority := 0, encryptedIsFragile := 1
        encryptedValue := 2, owner := aliceA, authorizedViewer := 0
        timestamp := 100, isPublic := false, exists_ := true } ∧
    (0, 2) ∈ sCreated.fhe.plain ∧
    (0, aliceA) ∈ sCreated.fhe.acl ∧
    0 ∈ sCreated.fhe.aclThis ∧
    ownerIndex sCreated aliceA = ownerIndex initialState aliceA ++ ["C1"] := by
  have h := (C2_createCargo initialState aliceA 100 "C1" "Paris" 2 false 500).2 sCreated
    [Event.cargoCreated "C1" aliceA] rfl
  exact ⟨h.1, h.2.1, h.2.2.2.2.2.2.2.1, h.2.2.2.2.1, h.2.2.2.2.2.2.2.2.2.2.1⟩

/-- C6: `updatePrivacySettings` fails exactly when the record is absent or
the caller is not the owner; on success it sets `isPublic`, replaces the
authorized viewer (possibly with the zero sentinel), grants the viewer
permission on the three stored handles exactly when the viewer is not the
sentinel (the library state is untouched otherwise), and emits the
privacy-changed event. -/
theorem C6_updatePrivacySettings (s : ContractState) (sender : Address)
    (id : String) (pub : Bool) (viewer : Address) :
    ((∃ r, updatePrivacySettings s sender id pub viewer = Except.ok r) ↔
      (getCargo s id).exists_ = true ∧ (getCargo s id).owner = sender) ∧
    (∀ s' evs, updatePrivacySettings s sender id pub viewer = Except.ok (s', evs) →
      getCargo s' id =
        { getCargo s id with isPublic := pub, authorizedViewer := viewer } ∧
      (viewer ≠ 0 →
        ((getCargo s id).encryptedPriority, viewer) ∈ s'.fhe.acl ∧
        ((getCargo s id).encryptedIsFragile, viewer) ∈ s'.fhe.acl ∧
        ((getCargo s id).encryptedValue, viewer) ∈ s'.fhe.acl) ∧
      (viewer = 0 → s'.fhe = s.fhe) ∧
      evs = [Event.cargoPrivacyUpdated id pub]) := by
  constructor
  · constructor
    · rintro ⟨r, hok⟩
      have h := (updatePrivacySettings_ok_iff s sender id pub viewer r).mp hok
      exact ⟨h.1, h.2.1⟩
    · rintro ⟨h1, h2⟩
      exact ⟨_, (updatePrivacySettings_ok_iff s sender id pub viewer _).mpr ⟨h1, h2, rfl⟩⟩
  · intro s' evs hok
    refine ⟨updatePrivacySettings_getCargo s sender id pub viewer s' evs hok, ?_, ?_, ?_⟩ <;>
      obtain ⟨h1, h2, hr⟩ := (updatePrivacySettings_ok_iff s sender id pub viewer _).mp hok <;>
      rw [Prod.ext_iff] at hr
    · intro hv
      obtain ⟨hs, he⟩ := hr
      subst hs
      simp only [if_pos hv]
      simp [fheAllow]
    · intro hv
      obtain ⟨hs, he⟩ := hr
      subst hs
      simp only [hv]
      simp [setCargo]
    · exact hr.2.symm

/-- Witness for C6: the concrete privacy update that designates `carolA`
grants her the three handle permissions and replaces the viewer; the one
that sets public with the zero sentinel leaves the library state alone. -/
theorem C6_witness :
    getCargo sViewer "C1" =
      { getCargo sCreated "C1" with isPublic := false, authorizedViewer := carolA } ∧
    (0, carolA) ∈ sViewer.fhe.acl ∧ (1, carolA) ∈ sViewer.fhe.acl ∧
    (2, carolA) ∈ sViewer.fhe.acl ∧
    sPublic.fhe = sCreated.fhe := by
  have h1 := (C6_updatePrivacySettings sCreated aliceA "C1" false carolA).2 sViewer
    [Event.cargoPrivacyUpdated "C1" false] rfl
  have h2 := (C6_updatePrivacySettings sCreated aliceA "C1" true 0).2 sPublic
    [Event.cargoPrivacyUpdated "C1" true] rfl
  have hg := h1.2.1 (by decide)
  exact ⟨h1.1, (by decide : (getCargo sCreated "C1").encryptedPriority = 0) ▸ hg.1,
    (by decide : (getCargo sCreated "C1").encryptedIsFragile = 1) ▸ hg.2.1,
    (by decide : (getCargo sCreated "C1").encryptedValue = 2) ▸ hg.2.2,
    h2.2.2.1 rfl⟩

/-- C7: `updateStatus` fails exactly when the record is absent or the
caller is not the owner; on success it overwrites only status, location
and timestamp of that record, leaves every other record, the owner index
and the encryption-library state unchanged, and emits the status-changed
event with the new status and location. -/
theorem C7_updateStatus_frame (s : ContractState) (sender : Address) (t : Nat)
    (id st loc : String) :
    ((∃ r, updateStatus s sender t id st loc = Except.ok r) ↔
      (getCargo s id).exists_ = true ∧ (getCargo s id).owner = sender) ∧
    (∀ s' evs, updateStatus s sender t id st loc = Except.ok (s', evs) →
      getCargo s' id =
        { getCargo s id with status := st, location := loc, timestamp := t } ∧
      (∀ id', id' ≠ id → getCargo s' id' = getCargo s id') ∧
      s'.ownerCargos = s.ownerCargos ∧
      s'.fhe = s.fhe ∧
      evs = [Event.cargoStatusUpdated id st loc]) := by
  constructor
  · constructor
    · rintro ⟨r, hok⟩
      have h := (updateStatus_ok_iff s sender t id st loc r).mp hok
      exact ⟨h.1, h.2.1⟩
    · rintro ⟨h1, h2⟩
      exact ⟨_, (updateStatus_ok_iff s sender t id st loc _).mpr ⟨h1, h2, rfl⟩⟩
  · intro s' evs hok
    obtain ⟨h1, h2, hr⟩ := (updateStatus_ok_iff s sender t id st loc _).mp hok
    rw [Prod.ext_iff] at hr
    obtain ⟨hs, he⟩ := hr
    subst hs
    subst he
    exact ⟨getCargo_setCargo_self s id _,
      fun id' hne => getCargo_setCargo_ne s id id' _ hne, rfl, rfl, rfl⟩

/-- `sCreated` after the owner's status update to `("InTransit", "Lyon")`. -/
def sMoved : ContractState :=
  (applyTx sCreated ⟨aliceA, 105, Op.updateStatus "C1" "InTransit" "Lyon"⟩).1

/-- Witness for C7: on the concrete record the owner's status update to
`("InTransit", "Lyon")` rewrites exactly those fields plus the timestamp
and leaves the owner index and the library state unchanged. -/
theorem C7_witness :
    getCargo sMoved "C1" =
      { getCargo sCreated "C1" with
          status := "InTransit", location := "Lyon", timestamp := 105 } ∧
    sMoved.ownerCargos = sCreated.ownerCargos ∧ sMoved.fhe = sCreated.fhe := by
  have h := (C7_updateStatus_frame sCreated aliceA 105 "C1" "InTransit" "Lyon").2 sMoved
    [Event.cargoStatusUpdated "C1" "InTransit" "Lyon"] rfl
  exact ⟨h.1, h.2.2.1, h.2.2.2.1⟩

theorem applyTx_eq_of_not_ok (s : ContractState) (tx : Tx)
    (h : ∀ r, step s tx.sender tx.time tx.op ≠ Except.ok r) :
    applyTx s tx = (s, []) := by
  unfold applyTx
  cases hstep : step s tx.sender tx.time tx.op with
  | ok r => exact absurd hstep (h r)
  | error m => rfl

/-- C5: failing operations never have a partial effect.  A second
`createCargo` on an id just created fails and, under the revert semantics
of `applyTx`, leaves the whole state (the first record included)
untouched; `updateStatus`, `updatePrivacySettings` and `authorizeViewer`
called on an absent record or by a non-owner fail and leave the state
unchanged. -/
theorem C5_no_partial_effects (s : ContractState) :
    (∀ sender t id dest p frag v s' evs sender2 t2 dest2 p2 frag2 v2,
      createCargo s sender t id dest p frag v = Except.ok (s', evs) →
      (∀ r, createCargo s' sender2 t2 id dest2 p2 frag2 v2 ≠ Except.ok r) ∧
      applyTx s' ⟨sender2, t2, Op.createCargo id dest2 p2 frag2 v2⟩ = (s', [])) ∧
    (∀ sender t id st loc,
      ¬((getCargo s id).exists_ = true ∧ (getCargo s id).owner = sender) →
      (∀ r, updateStatus s sender t id st loc ≠ Except.ok r) ∧
      applyTx s ⟨sender, t, Op.updateStatus id st loc⟩ = (s, [])) ∧
    (∀ sender t id pub viewer,
      ¬((getCargo s id).exists_ = true ∧ (getCargo s id).owner = sender) →
      (∀ r, updatePrivacySettings s sender id pub viewer ≠ Except.ok r) ∧
      applyTx s ⟨sender, t, Op.updatePrivacySettings id pub viewer⟩ = (s, [])) ∧
    (∀ sender t id viewer,
      ¬((getCargo s id).exists_ = true ∧ (getCargo s id).owner = sender) →
      (∀ r, authorizeViewer s sender id viewer ≠ Except.ok r) ∧
      applyTx s ⟨sender, t, Op.authorizeViewer id viewer⟩ = (s, [])) := by
  refine ⟨?_, ?_, ?_, ?_⟩
  · intro sender t id dest p frag v s' evs sender2 t2 dest2 p2 frag2 v2 hok
    obtain ⟨h1, h2, h3, h4, hr⟩ :=
      (createCargo_ok_iff s sender t id dest p frag v _).mp hok
    have hsx : (getCargo s' id).exists_ = true := by
      have hs : _ = s' := congrArg Prod.fst hr
      rw [← hs, getCargo_pushOwnerCargo, getCargo_setCargo_self]
    have hne : ∀ r, createCargo s' sender2 t2 id dest2 p2 frag2 v2 ≠ Except.ok r := by
      intro r hok2
      have h := (createCargo_ok_iff s' sender2 t2 id dest2 p2 frag2 v2 r).mp hok2
      rw [hsx] at h
      exact Bool.noConfusion h.1
    exact ⟨hne, applyTx_eq_of_not_ok s' _ hne⟩
  · intro sender t id st loc hng
    have hne : ∀ r, updateStatus s sender t id st loc ≠ Except.ok r := by
      intro r hok
      have h := (updateStatus_ok_iff s sender t id st loc r).mp hok
      exact hng ⟨h.1, h.2.1⟩
    exact ⟨hne, applyTx_eq_of_not_ok s _ hne⟩
  · intro sender t id pub viewer hng
    have hne : ∀ r, updatePrivacySettings s sender id pub viewer ≠ Except.ok r := by
      intro r hok
      have h := (updatePrivacySettings_ok_iff s sender id pub viewer r).mp hok
      exact hng ⟨h.1, h.2.1⟩
    exact ⟨hne, applyTx_eq_of_not_ok s _ hne⟩
  · intro sender t id viewer hng
    have hne : ∀ r, authorizeViewer s sender id viewer ≠ Except.ok r := by
      intro r hok
      have h := (authorizeViewer_ok_iff s sender id viewer r).mp hok
      exact hng ⟨h.1, h.2.1⟩
    exact ⟨hne, applyTx_eq_of_not_ok s _ hne⟩

/-- Witness for C5: a duplicate creation of `"C1"` reverts and leaves the
state unchanged, and `bobA`'s attempted status update, privacy update and
viewer authorization on the owner's record all revert with no state
change. -/
theorem C5_witness :
    applyTx sCreated ⟨bobA, 106, Op.createCargo "C1" "Berlin" 1 true 9⟩ =
      (sCreated, []) ∧
    applyTx sCreated ⟨bobA, 106, Op.updateStatus "C1" "Hijacked" "Nowhere"⟩ =
      (sCreated, []) ∧
    applyTx sCreated ⟨bobA, 106, Op.updatePrivacySettings "C1" true bobA⟩ =
      (sCreated, []) ∧
    applyTx sCreated ⟨bobA, 106, Op.authorizeViewer "C1" bobA⟩ = (sCreated, []) := by
  refine ⟨((C5_no_partial_effects initialState).1 aliceA 100 "C1" "Paris" 2 false 500
      sCreated [Event.cargoCreated "C1" aliceA] bobA 106 "Berlin" 1 true 9 rfl).2,
    ((C5_no_partial_effects sCreated).2.1 bobA 106 "C1" "Hijacked" "Nowhere"
      (by decide)).2,
    ((C5_no_partial_effects sCreated).2.2.1 bobA 106 "C1" true bobA (by decide)).2,
    ((C5_no_partial_effects sCreated).2.2.2 bobA 106 "C1" bobA (by decide)).2⟩

theorem step_view_state {α : Type} (s : ContractState) (e : Except String α)
    (s' : ContractState) (evs : List Event)
    (h : Except.map (fun _ => (s, ([] : List Event))) e = Except.ok (s', evs)) :
    s' = s ∧ evs = [] := by
  cases e with
  | error m => simp [Except.map] at h
  | ok a =>
    simp [Except.map] at h
    exact ⟨h.1.symm, h.2⟩

/-- C8: across the whole call surface, a successful call never changes an
existing record's owner or its three ciphertext handles, and never resets
its existence flag: every record, once created, keeps its owner and
handles and is never deleted. -/
theorem C8_created_record_invariants (s : ContractState) (sender : Address) (t : Nat)
    (op : Op) (id : String) :
    (getCargo s id).exists_ = true →
    ∀ s' evs, step s sender t op = Except.ok (s', evs) →
      (getCargo s' id).owner = (getCargo s id).owner ∧
      (getCargo s' id).encryptedPriority = (getCargo s id).encryptedPriority ∧
      (getCargo s' id).encryptedIsFragile = (getCargo s id).encryptedIsFragile ∧
      (getCargo s' id).encryptedValue = (getCargo s id).encryptedValue ∧
      (getCargo s' id).exists_ = true := by
  intro hex s' evs hstep
  cases op
  case createCargo id2 dest p frag v =>
    obtain ⟨h1, h2, h3, h4, hr⟩ :=
      (createCargo_ok_iff s sender t id2 dest p frag v _).mp hstep
    have hs : _ = s' := congrArg Prod.fst hr
    subst hs
    by_cases hid : id = id2
    · subst hid
      rw [hex] at h1
      exact Bool.noConfusion h1
    · rw [getCargo_pushOwnerCargo, getCargo_setCargo_ne _ _ _ _ hid]
      exact ⟨rfl, rfl, rfl, rfl, hex⟩
  case updateStatus id2 st loc =>
    obtain ⟨h1, h2, hr⟩ := (updateStatus_ok_iff s sender t id2 st loc _).mp hstep
    have hs : _ = s' := congrArg Prod.fst hr
    subst hs
    by_cases hid : id = id2
    · subst hid
      rw [getCargo_setCargo_self]
      exact ⟨rfl, rfl, rfl, rfl, hex⟩
    · rw [getCargo_setCargo_ne _ _ _ _ hid]
      exact ⟨rfl, rfl, rfl, rfl, hex⟩
  case updatePrivacySettings id2 pub viewer =>
    by_cases hid : id = id2
    · subst hid
      have hrec := updatePrivacySettings_getCargo s sender id pub viewer s' evs hstep
      rw [hrec]
      exact ⟨rfl, rfl, rfl, rfl, hex⟩
    · obtain ⟨h1, h2, hr⟩ :=
        (updatePrivacySettings_ok_iff s sender id2 pub viewer _).mp hstep
      have hs : _ = s' := congrArg Prod.fst hr
      subst hs
      split
      · rw [getCargo_fheUpdate, getCargo_setCargo_ne _ _ _ _ hid]
        exact ⟨rfl, rfl, rfl, rfl, hex⟩
      · rw [getCargo_setCargo_ne _ _ _ _ hid]
        exact ⟨rfl, rfl, rfl, rfl, hex⟩
  case authorizeViewer id2 viewer =>
    obtain ⟨h1, h2, hr⟩ := (authorizeViewer_ok_iff s sender id2 viewer _).mp hstep
    have hs : _ = s' := congrArg Prod.fst hr
    subst hs
    by_cases hid : id = id2
    · subst hid
      rw [getCargo_fheUpdate, getCargo_setCargo_self]
      exact ⟨rfl, rfl, rfl, rfl, hex⟩
    · rw [getCargo_fheUpdate, getCargo_setCargo_ne _ _ _ _ hid]
      exact ⟨rfl, rfl, rfl, rfl, hex⟩
  case getCargoId id2 =>
    obtain ⟨hs, -⟩ := step_view_state s (getCargoId s sender id2) s' evs hstep
    subst hs
    exact ⟨rfl, rfl, rfl, rfl, hex⟩
  case getCargoDestination id2 =>
    obtain ⟨hs, -⟩ := step_view_state s (getCargoDestination s sender id2) s' evs hstep
    subst hs
    exact ⟨rfl, rfl, rfl, rfl, hex⟩
  case getCargoStatus id2 =>
    obtain ⟨hs, -⟩ := step_view_state s (getCargoStatus s sender id2) s' evs hstep
    subst hs
    exact ⟨rfl, rfl, rfl, rfl, hex⟩
  case getCargoLocation id2 =>
    obtain ⟨hs, -⟩ := step_view_state s (getCargoLocation s sender id2) s' evs hstep
    subst hs
    exact ⟨rfl, rfl, rfl, rfl, hex⟩
  case isCargoPublic id2 =>
    obtain ⟨hs, -⟩ := step_view_state s (isCargoPublic s sender id2) s' evs hstep
    subst hs
    exact ⟨rfl, rfl, rfl, rfl, hex⟩
  case getCargoOwner id2 =>
    obtain ⟨hs, -⟩ := step_view_state s (getCargoOwner s sender id2) s' evs hstep
    subst hs
    exact ⟨rfl, rfl, rfl, rfl, hex⟩
  case getCargoTimestamp id2 =>
    obtain ⟨hs, -⟩ := step_view_state s (getCargoTimestamp s sender id2) s' evs hstep
    subst hs
    exact ⟨rfl, rfl, rfl, rfl, hex⟩
  case getOwnerCargos a2 =>
    obtain ⟨hs, -⟩ := step_view_state s (getOwnerCargos s sender a2) s' evs hstep
    subst hs
    exact ⟨rfl, rfl, rfl, rfl, hex⟩
  case getPublicCargoDestination id2 =>
    obtain ⟨hs, -⟩ := step_view_state s (getPublicCargoDestination s sender id2) s' evs hstep
    subst hs
    exact ⟨rfl, rfl, rfl, rfl, hex⟩
  case getPublicCargoStatus id2 =>
    obtain ⟨hs, -⟩ := step_view_state s (getPublicCargoStatus s sender id2) s' evs hstep
    subst hs
    exact ⟨rfl, rfl, rfl, rfl, hex⟩
  case getPublicCargoLocation id2 =>
    obtain ⟨hs, -⟩ := step_view_state s (getPublicCargoLocation s sender id2) s' evs hstep
    subst hs
    exact ⟨rfl, rfl, rfl, rfl, hex⟩
  case getPublicCargoOwner id2 =>
    obtain ⟨hs, -⟩ := step_view_state s (getPublicCargoOwner s sender id2) s' evs hstep
    subst hs
    exact ⟨rfl, rfl, rfl, rfl, hex⟩
  case getEncryptedPriority id2 =>
    obtain ⟨hs, -⟩ := step_view_state s (getEncryptedPriority s sender id2) s' evs hstep
    subst hs
    exact ⟨rfl, rfl, rfl, rfl, hex⟩
  case getEncryptedIsFragile id2 =>
    obtain ⟨hs, -⟩ := step_view_state s (getEncryptedIsFragile s sender id2) s' evs hstep
    subst hs
    exact ⟨rfl, rfl, rfl, rfl, hex⟩
  case getEncryptedValue id2 =>
    obtain ⟨hs, -⟩ := step_view_state s (getEncryptedValue s sender id2) s' evs hstep
    subst hs
    exact ⟨rfl, rfl, rfl, rfl, hex⟩

/-- Witness for C8: the concrete status update preserves the owner, the
three handles and the existence flag of `"C1"`. -/
theorem C8_witness :
    (getCargo sMoved "C1").owner = (getCargo sCreated "C1").owner ∧
    (getCargo sMoved "C1").encryptedPriority =
      (getCargo sCreated "C1").encryptedPriority ∧
    (getCargo sMoved "C1").encryptedIsFragile =
      (getCargo sCreated "C1").encryptedIsFragile ∧
    (getCargo sMoved "C1").encryptedValue = (getCargo sCreated "C1").encryptedValue ∧
    (getCargo sMoved "C1").exists_ = true :=
  C8_created_record_invariants sCreated aliceA 105
    (Op.updateStatus "C1" "InTransit" "Lyon") "C1" (by decide) sMoved
    [Event.cargoStatusUpdated "C1" "InTransit" "Lyon"] rfl

theorem ownerIndex_step (s : ContractState) (sender : Address) (t : Nat) (op : Op)
    (s' : ContractState) (evs : List Event)
    (h : step s sender t op = Except.ok (s', evs)) (a : Address) :
    ownerIndex s' a = ownerIndex s a ++
      (match op with
       | .createCargo id _ _ _ _ => if sender = a then [id] else []
       | _ => []) := by
  cases op
  case createCargo id dest p frag v =>
    obtain ⟨h1, h2, h3, h4, hr⟩ :=
      (createCargo_ok_iff s sender t id dest p frag v _).mp h
    have hs : _ = s' := congrArg Prod.fst hr
    subst hs
    by_cases ha : sender = a
    · subst ha
      rw [ownerIndex_pushOwnerCargo_self, ownerIndex_setCargo]
      simp
      rfl
    · rw [ownerIndex_pushOwnerCargo_ne _ _ _ _ fun hc => ha hc.symm, ownerIndex_setCargo]
      simp [ha]
      rfl
  case updateStatus id st loc =>
    obtain ⟨h1, h2, hr⟩ := (updateStatus_ok_iff s sender t id st loc _).mp h
    have hs : _ = s' := congrArg Prod.fst hr
    subst hs
    simp [ownerIndex_setCargo]
  case updatePrivacySettings id pub viewer =>
    obtain ⟨h1, h2, hr⟩ := (updatePrivacySettings_ok_iff s sender id pub viewer _).mp h
    have hs : _ = s' := congrArg Prod.fst hr
    subst hs
    split <;> simp [ownerIndex, setCargo]
  case authorizeViewer id viewer =>
    obtain ⟨h1, h2, hr⟩ := (authorizeViewer_ok_iff s sender id viewer _).mp h
    have hs : _ = s' := congrArg Prod.fst hr
    subst hs
    simp [ownerIndex, setCargo]
  case getCargoId id =>
    obtain ⟨hs, -⟩ := step_view_state s (getCargoId s sender id) s' evs h
    subst hs
    simp
  case getCargoDestination id =>
    obtain ⟨hs, -⟩ := step_view_state s (getCargoDestination s sender id) s' evs h
    subst hs
    simp
  case getCargoStatus id =>
    obtain ⟨hs, -⟩ := step_view_state s (getCargoStatus s sender id) s' evs h
    subst hs
    simp
  case getCargoLocation id =>
    obtain ⟨hs, -⟩ := step_view_state s (getCargoLocation s sender id) s' evs h
    subst hs
    simp
  case isCargoPublic id =>
    obtain ⟨hs, -⟩ := step_view_state s (isCargoPublic s sender id) s' evs h
    subst hs
    simp
  case getCargoOwner id =>
    obtain ⟨hs, -⟩ := step_view_state s (getCargoOwner s sender id) s' evs h
    subst hs
    simp
  case getCargoTimestamp id =>
    obtain ⟨hs, -⟩ := step_view_state s (getCargoTimestamp s sender id) s' evs h
    subst hs
    simp
  case getOwnerCargos a2 =>
    obtain ⟨hs, -⟩ := step_view_state s (getOwnerCargos s sender a2) s' evs h
    subst hs
    simp
  case getPublicCargoDestination id =>
    obtain ⟨hs, -⟩ := step_view_state s (getPublicCargoDestination s sender id) s' evs h
    subst hs
    simp
  case getPublicCargoStatus id =>
    obtain ⟨hs, -⟩ := step_view_state s (getPublicCargoStatus s sender id) s' evs h
    subst hs
    simp
  case getPublicCargoLocation id =>
    obtain ⟨hs, -⟩ := step_view_state s (getPublicCargoLocation s sender id) s' evs h
    subst hs
    simp
  case getPublicCargoOwner id =>
    obtain ⟨hs, -⟩ := step_view_state s (getPublicCargoOwner s sender id) s' evs h
    subst hs
    simp
  case getEncryptedPriority id =>
    obtain ⟨hs, -⟩ := step_view_state s (getEncryptedPriority s sender id) s' evs h
    subst hs
    simp
  case getEncryptedIsFragile id =>
    obtain ⟨hs, -⟩ := step_view_state s (getEncryptedIsFragile s sender id) s' evs h
    subst hs
    simp
  case getEncryptedValue id =>
    obtain ⟨hs, -⟩ := step_view_state s (getEncryptedValue s sender id) s' evs h
    subst hs
    simp

theorem ownerIndex_execTxs (txs : List Tx) : ∀ (s : ContractState) (a : Address),
    ownerIndex (execTxs s txs) a = ownerIndex s a ++ createdIds s txs a := by
  induction txs with
  | nil =>
    intro s a
    simp [execTxs, createdIds]
  | cons tx rest ih =>
    intro s a
    rw [execTxs, createdIds, ih, ← List.append_assoc]
    congr 1
    obtain ⟨sender, t, op⟩ := tx
    cases hstep : step s sender t op with
    | error m =>
      have happ : applyTx s ⟨sender, t, op⟩ = (s, []) := by simp [applyTx, hstep]
      rw [happ]
      cases op <;> simp [createdHead, hstep]
    | ok r =>
      obtain ⟨s', evs⟩ := r
      have happ : applyTx s ⟨sender, t, op⟩ = (s', evs) := by simp [applyTx, hstep]
      rw [happ]
      have hidx := ownerIndex_step s sender t op s' evs hstep a
      rw [hidx]
      cases op <;> simp [createdHead, hstep]

/-- C10: `getOwnerCargos` never fails and checks nothing: for every state,
caller and queried address it returns the owner index; its result is
caller-independent; and along any transaction history from the fresh
contract it returns exactly the list of ids the queried address has
successfully created, in order (so empty for an address that never created
one). -/
theorem C10_getOwnerCargos_enumerates :
    (∀ (s : ContractState) (sender a : Address),
      getOwnerCargos s sender a = Except.ok (ownerIndex s a)) ∧
    (∀ (s : ContractState) (sender sender' a : Address),
      getOwnerCargos s sender a = getOwnerCargos s sender' a) ∧
    (∀ (txs : List Tx) (sender a : Address),
      getOwnerCargos (execTxs initialState txs) sender a =
        Except.ok (createdIds initialState txs a)) := by
  refine ⟨fun s sender a => rfl, fun s sender sender' a => rfl, fun txs sender a => ?_⟩
  have h := ownerIndex_execTxs txs initialState a
  calc getOwnerCargos (execTxs initialState txs) sender a
      = Except.ok (ownerIndex (execTxs initialState txs) a) := rfl
    _ = Except.ok (createdIds initialState txs a) := by
        rw [h]
        rfl

end PrivacyCargoTracking
